import Mathlib

/-!
Verification development for the radscraper extraction pipeline
(src/ingestion/radiopaedia.py and src/models/article.py).

The HTML document is embedded as a record of the query results the scraper
reads from the parsed tree (the lenient HTML parser and the HTTP fetch are
external collaborators).  String-processing primitives of the host language
(whitespace regex, str.replace, str.lower, digit extraction) are translated
to structural recursions over `List Char` so that every definition evaluates
by `rfl`/`decide`.
-/

/-! ## String primitives -/

/-- Does the first list occur as a leading segment of the second?
Models the position-0 test used for substring search. -/
def leadsWith : List Char → List Char → Bool
  | [], _ => true
  | _ :: _, [] => false
  | p :: ps, c :: cs => p == c && leadsWith ps cs

def containsSubAux (pat : List Char) : List Char → Bool
  | [] => leadsWith pat []
  | c :: rest => leadsWith pat (c :: rest) || containsSubAux pat rest

/-- Python's substring membership test `pat in s`. -/
def containsSub (s pat : String) : Bool :=
  containsSubAux pat.data s.data

/-- Maximal runs of non-whitespace characters, in order. -/
def wordChunks (cs : List Char) : List (List Char) :=
  (cs.foldr
    (fun c acc =>
      if c.isWhitespace then [] :: acc
      else
        match acc with
        | [] => [[c]]
        | w :: ws => (c :: w) :: ws)
    []).filter (fun w => !w.isEmpty)

/-- The text normalizer `clean_text`: `re.sub(r'\s+', ' ', text).strip()`,
with falsy input (absent node text or the empty string) mapped to `""`.
Collapsing every whitespace run to one space and trimming both ends is the
same as joining the maximal non-whitespace runs with single spaces. -/
def clean_text : Option String → String
  | none => ""
  | some s => String.mk (List.intercalate [' '] (wordChunks s.data))

/-- Python `str.lower()` (ASCII case mapping suffices for the inputs the
claims mention). -/
def lowerStr (s : String) : String :=
  String.mk (s.data.map Char.toLower)

/-- Python `title.lower().replace(' ', '_')`'s replace step: a single-character
pattern replaced by a single character is a character map. -/
def underscoreSpaces (s : String) : String :=
  String.mk (s.data.map (fun c => if c == ' ' then '_' else c))

/-- If `pat` leads `s`, return the remainder of `s` after it. -/
def stripLead : List Char → List Char → Option (List Char)
  | [], s => some s
  | _ :: _, [] => none
  | p :: ps, c :: cs => if p == c then stripLead ps cs else none

/-- Python `s.replace(pat, '')`: scan left to right, removing non-overlapping
occurrences of a non-empty `pat`; the empty pattern leaves `s` unchanged
(inserting the empty replacement changes nothing).  The fuel argument is
instantiated with the length of `s`, which bounds the number of scan steps. -/
def removeOccsAux (pat : List Char) : Nat → List Char → List Char
  | _, [] => []
  | 0, s => s
  | fuel + 1, c :: rest =>
    match pat, stripLead pat (c :: rest) with
    | _ :: _, some r => removeOccsAux pat fuel r
    | _, _ => c :: removeOccsAux pat fuel rest

/-- Python `s.replace(pat, '')`. -/
def pyReplaceEmpty (s pat : String) : String :=
  String.mk (removeOccsAux pat.data s.data.length s.data)

def digitsToNat (acc : Nat) : List Char → Nat
  | [] => acc
  | c :: rest => digitsToNat (acc * 10 + (c.toNat - '0'.toNat)) rest

/-- `re.findall(r'\d+', value)` followed by `int(nums[0])`: the first maximal
run of decimal digits, as a number; `none` when no digit occurs. -/
def firstNumber : List Char → Option Nat
  | [] => none
  | c :: rest =>
    if c.isDigit then some (digitsToNat 0 (c :: rest.takeWhile Char.isDigit))
    else firstNumber rest

/-- Python `"\n".join(lines)`. -/
def joinLines : List String → String
  | [] => ""
  | [l] => l
  | l :: m :: rest => l ++ "\n" ++ joinLines (m :: rest)

/-! ## Decoded JSON values

Output type of the host JSON decoder (`json.loads`), which is an external
library collaborator; the embedding carries the decoded value (numbers as
integers — no claim involves a fractional payload). -/

inductive Json where
  | null : Json
  | bool : Bool → Json
  | num : Int → Json
  | str : String → Json
  | arr : List Json → Json
  | obj : List (String × Json) → Json

/-- Dictionary lookup on decoded objects.  `json.loads` resolves duplicate
keys by letting the later binding win, so the last matching pair is taken. -/
def jlookup : List (String × Json) → String → Option Json
  | [], _ => none
  | (k, v) :: rest, key =>
    match jlookup rest key with
    | some r => some r
    | none => if k == key then some v else none

def commaJoin : List String → String
  | [] => ""
  | [l] => l
  | l :: m :: rest => l ++ ", " ++ commaJoin (m :: rest)

mutual
/-- Python `repr` of a decoded-JSON value (used by `str` on containers);
string escaping of exotic characters is not reproduced — no claim ever
inspects this rendering. -/
def pyRepr : Json → String
  | .null => "None"
  | .bool true => "True"
  | .bool false => "False"
  | .num n => toString n
  | .str s => "'" ++ s ++ "'"
  | .arr xs => "[" ++ commaJoin (pyReprList xs) ++ "]"
  | .obj fs => "\x7b" ++ commaJoin (pyReprFields fs) ++ "\x7d"

def pyReprList : List Json → List String
  | [] => []
  | j :: rest => pyRepr j :: pyReprList rest

def pyReprFields : List (String × Json) → List String
  | [] => []
  | (k, v) :: rest => ("'" ++ k ++ "': " ++ pyRepr v) :: pyReprFields rest
end

/-- Python `str()` applied to a decoded-JSON value. -/
def pyStr : Json → String
  | .str s => s
  | j => pyRepr j

/-! ## Record models

`src/models/article.py` is in the repository and is translated directly.
The case model module (`src/models/case.py`) is imported by the scraper but
is not part of the available sources; the `Case` structures below are
modelled from the spec (§3 data model, §4.3 extractor defaults, §8
scenarios A/B) together with the constructor call in `scrape_case`. -/

structure ArticleSection where
  slug : String
  title : String
  markdown : String
  deriving DecidableEq

structure ArticleImage where
  image_id : String
  figure_label : Option String
  modality : Option String
  plane : Option String
  caption : String
  filepath : String
  deriving DecidableEq

/-- The metadata envelope that `scrape_article`/`scrape_case` assemble
(`created_at`, `url`, `license`). -/
structure MetaEnvelope where
  created_at : String
  url : String
  license : String
  deriving DecidableEq

structure Article where
  source : String
  source_id : String
  type : String
  title : String
  body_system : String
  body_part : Option String
  sections : List ArticleSection
  images : List ArticleImage
  tags : List String
  metadata : MetaEnvelope

/-- Modelled from the spec: `src/models/case.py` is absent from the sources;
fields follow the constructor call in `scrape_case` plus §3.  `ann_map`
models the Python `annotations` attribute (an arbitrary key-value overlay). -/
structure CaseImage where
  image_id : String
  modality : String
  plane : String
  filepath : String
  caption : String
  ann_map : List (String × Json)

/-- Modelled from the spec: diagnosis is free text plus a certainty label. -/
structure Diagnosis where
  text : String
  certainty : String
  deriving DecidableEq

/-- Modelled from the spec: narrative text blocks. -/
structure Narrative where
  findings : String
  impression : String
  discussion : String
  deriving DecidableEq

/-- Modelled from the spec: the Case record.  `scrape_case` never passes
patient demographics to the constructor, so `age`/`sex` carry dataclass
defaults (`None`), as scenario A's wording (`age=None`, `sex=None`)
requires. -/
structure Case where
  source : String
  source_id : String
  title : String
  body_system : String
  body_part : String
  modality : List String
  clinical_presentation : String
  diagnosis : Diagnosis
  narrative : Narrative
  images : List CaseImage
  tags : List String
  metadata : MetaEnvelope
  age : Option Nat := none
  sex : Option String := none

/-! ## Document embedding

A fetched page is embedded as the tuple of query results the scraper reads
from the parsed tree: each `Option String` is the text of the first match of
the corresponding selector (`none` when the selector has no match), each
list collects the texts of a `select` call in document order. -/

/-- One `.data-item` inside `#case-patient-data`: the text of its
`.data-item-label` child (`none` when that child is absent) and the item's
own full text. -/
structure DataItem where
  labelText : Option String
  itemText : String
  deriving DecidableEq

structure CaseDoc where
  /-- text of `.row.rid .col-sm-8` -/
  ridText : Option String
  /-- `time.date` element: present/absent, and its `datetime` attribute -/
  dateAttr : Option (Option String)
  /-- text of `h1.header-title` -/
  headerTitle : Option String
  /-- text of `.meta-item-systems .col-sm-8 a` -/
  systemText : Option String
  /-- texts of `.meta-item-tags .col-sm-8 a` -/
  tagTexts : List String
  /-- `#case-patient-data` and its `.data-item` children -/
  patientItems : Option (List DataItem)
  /-- text of `.diagnostic-certainty-container` -/
  diagnosisText : Option String
  /-- text of `.study-findings.body` -/
  findingsText : Option String
  /-- text of `#case-discussion` -/
  discussionText : Option String
  /-- `src` attributes of `._StudyCarouselHeader_ImageListItem img` -/
  carouselSrcs : List (Option String)

/-- A direct child of the `.body.user-generated-content` container: an
element with its tag name, its text, and the texts of its `li` descendants
(read only when the element is a `ul`), or a bare text node (whose `name`
is `None` in the host parser, so the traversal skips it). -/
inductive Node where
  | element : String → String → List String → Node
  | textNode : String → Node
  deriving DecidableEq

structure ArticleDoc where
  /-- text of `h1.header-title` -/
  headerTitle : Option String
  /-- text of `.row.section-end.rid .col-sm-8` -/
  ridText : Option String
  /-- text of `.meta-item-systems .col-sm-8 a` -/
  systemText : Option String
  /-- `.body.user-generated-content` and its children in document order -/
  contentChildren : Option (List Node)
  /-- the `.SidebarStudyViewer .hidden.data` node: `none` when absent;
  `some none` when present but its text is not decodable JSON;
  `some (some j)` when its text decodes to `j` (the decoder itself is the
  host JSON library) -/
  viewerData : Option (Option Json)
  /-- texts of `.meta-item-tags .col-sm-8 a` -/
  tagTexts : List String

/-! ## Field extractors (src/ingestion/radiopaedia.py) -/

/-- `f"rID-{clean_text(rid_div.text)}" if rid_div else "unknown"` — shared by
both entry points (they differ only in the selector locating the anchor). -/
def extractSourceId : Option String → String
  | some t => "rID-" ++ clean_text (some t)
  | none => "unknown"

/-- `date_el['datetime'] if date_el and date_el.has_attr('datetime') else
datetime.utcnow().isoformat()`; the clock reading is passed in as `now`. -/
def extractCreatedAt (dateAttr : Option (Option String)) (now : String) : String :=
  match dateAttr with
  | some (some d) => d
  | _ => now

/-- Case title: `clean_text(...)` when `h1.header-title` matches, else the
`"Untitled"` default. -/
def caseTitle : Option String → String
  | some t => clean_text (some t)
  | none => "Untitled"

/-- Body system: `clean_text(system_el.text) if system_el else "Unknown"`. -/
def extractSystem : Option String → String
  | some t => clean_text (some t)
  | none => "Unknown"

/-- `[clean_text(a.text) for a in soup.select('.meta-item-tags .col-sm-8 a')]`. -/
def extractTags (ts : List String) : List String :=
  ts.map (fun t => clean_text (some t))

/-- The `for item in patient_data.select('.data-item')` loop over the local
`patient` dict: `none` models the `AttributeError` raised by
`item.select_one('.data-item-label').text` when the label child is absent.
The loop's result is a pair (age, sex); `age_unit`/`other` are never
written by the loop. -/
def patientLoop : List DataItem → Option Nat → Option String → Option (Option Nat × Option String)
  | [], age, sex => some (age, sex)
  | item :: rest, age, sex =>
    match item.labelText with
    | none => none
    | some lbl =>
      let label := lowerStr (clean_text (some lbl))
      let value := pyReplaceEmpty (clean_text (some item.itemText)) lbl
      if containsSub label "age" then
        match firstNumber value.data with
        | some n => patientLoop rest (some n) sex
        | none => patientLoop rest age sex
      else if containsSub label "gender" || containsSub label "sex" then
        patientLoop rest age (some (lowerStr value))
      else patientLoop rest age sex

/-- The patient-data stage of `scrape_case`: when `#case-patient-data` is
absent the loop never runs and the dict keeps its initial `None` values. -/
def casePatient (items : Option (List DataItem)) : Option (Option Nat × Option String) :=
  match items with
  | some its => patientLoop its none none
  | none => some (none, none)

/-- The carousel-image loop: `enumerate` over all matched `img` elements,
skipping those whose `src` attribute is missing or falsy (the empty
string), while the index keeps counting. -/
def caseImages (source_id : String) (srcs : List (Option String)) : List CaseImage :=
  srcs.enum.filterMap fun p =>
    match p.2 with
    | none => none
    | some s =>
      if s == "" then none
      else
        some { image_id := source_id ++ "_img_" ++ toString (p.1 + 1)
               modality := "Unknown"
               plane := "Unknown"
               filepath := s
               caption := "Image " ++ toString (p.1 + 1) ++ " from case"
               ann_map := [] }

/-- `scrape_case` after the fetch/parse boundary: `none` models an exception
escaping the extraction (the only raise point past the fetch is the missing
label child inside the patient-data loop).  Note the computed patient pair
is never passed to the `Case` constructor, exactly as in the source. -/
def scrape_case (doc : CaseDoc) (url now : String) : Option Case :=
  let source_id := extractSourceId doc.ridText
  let created_at := extractCreatedAt doc.dateAttr now
  let title := caseTitle doc.headerTitle
  let body_system := extractSystem doc.systemText
  let tags := extractTags doc.tagTexts
  match casePatient doc.patientItems with
  | none => none
  | some _ =>
    some { source := "radiopaedia"
           source_id := source_id
           title := title
           body_system := body_system
           body_part := "Unknown"
           modality := [if tags.contains "ct" then "CT" else "X-ray"]
           clinical_presentation := "Not explicitly stated"
           diagnosis := { text := title
                          certainty := match doc.diagnosisText with
                            | some t => clean_text (some t)
                            | none => "unknown" }
           narrative := { findings := match doc.findingsText with
                            | some t => clean_text (some t)
                            | none => ""
                          impression := ""
                          discussion := match doc.discussionText with
                            | some t => clean_text (some t)
                            | none => "" }
           images := caseImages source_id doc.carouselSrcs
           tags := tags
           metadata := { created_at := created_at
                         url := url
                         license := "See Radiopaedia ToS" } }

/-! ## Section segmenter (article only) -/

/-- `child.name in ['h2', 'h3', 'h4']`. -/
def isHeadingName (nm : String) : Bool :=
  ["h2", "h3", "h4"].contains nm

/-- Building one `ArticleSection` from the current buffer:
`slug = title.lower().replace(' ', '_')`, `markdown = "\n".join(text)`. -/
def mkSection (title : String) (lines : List String) : ArticleSection :=
  { slug := underscoreSpaces (lowerStr title)
    title := title
    markdown := joinLines lines }

/-- Flushing the current buffer: emitted only when it has accumulated
content (`if current_section["text"]:`). -/
def flushSec (title : String) (lines : List String) (acc : List ArticleSection) : List ArticleSection :=
  if lines.isEmpty then acc else acc ++ [mkSection title lines]

/-- The `for child in content_div.children` traversal: headings (levels 2-4)
flush the buffer and retitle it, `p` children append one cleaned line, `ul`
children append one `"- "`-prefixed raw line per `li`, and every other
child (including bare text nodes, whose `name` is `None`) is skipped; the
final buffer is flushed after the loop. -/
def segLoop (title : String) (lines : List String) (acc : List ArticleSection) : List Node → List ArticleSection
  | [] => flushSec title lines acc
  | n :: rest =>
    match n with
    | .element nm t lis =>
      if isHeadingName nm then
        segLoop (clean_text (some t)) [] (flushSec title lines acc) rest
      else if nm == "p" then
        segLoop title (lines ++ [clean_text (some t)]) acc rest
      else if nm == "ul" then
        segLoop title (lines ++ lis.map (fun s => "- " ++ s)) acc rest
      else segLoop title lines acc rest
    | .textNode _ => segLoop title lines acc rest

/-- The section stage of `scrape_article`: the buffer is seeded with the
reserved title `"Introduction"`; no container, no sections. -/
def articleSections (children : Option (List Node)) : List ArticleSection :=
  match children with
  | some cs => segLoop "Introduction" [] [] cs
  | none => []

/-- The cleaned texts of the heading-level (2-4) children, in document
order. -/
def headingTitles (cs : List Node) : List String :=
  cs.filterMap fun n =>
    match n with
    | .element nm t _ => if isHeadingName nm then some (clean_text (some t)) else none
    | .textNode _ => none

def articleHeadingTitles (doc : ArticleDoc) : List String :=
  match doc.contentChildren with
  | some cs => headingTitles cs
  | none => []

/-! ## Embedded-data reader (article only) -/

/-- `item.get(key, dflt)` for the string-valued fields of an inclusion
entry.  (Python stores whatever object the payload holds in the
str-annotated dataclass slot; dataclass annotations are unchecked.  Every
claim-relevant payload carries strings, for which this is exact; a
non-string value is rendered with `pyStr` to keep the field total.) -/
def pyGetStr (fs : List (String × Json)) (key dflt : String) : String :=
  match jlookup fs key with
  | some (Json.str s) => s
  | some j => pyStr j
  | none => dflt

/-- One inclusion entry mapped to an `ArticleImage` (note the source sets
`modality="Unknown"`, a string, and leaves `figure_label`/`plane` as
`None`). -/
def imageOfItem (fs : List (String × Json)) : ArticleImage :=
  { image_id := pyStr ((jlookup fs "imageId").getD (Json.str "unknown"))
    figure_label := none
    modality := some "Unknown"
    plane := none
    caption := pyGetStr fs "caption" ""
    filepath := pyGetStr fs "thumbnail" "" }

/-- `for item in data.get('inclusions', [])`: a non-dict item raises inside
the loop (`item.get` on a non-dict); the bare `except` then keeps the
images appended so far. -/
def itemsImages : List Json → List ArticleImage
  | [] => []
  | Json.obj fs :: rest => imageOfItem fs :: itemsImages rest
  | _ :: _ => []

/-- The body of the `try` block applied to a decoded payload: a non-dict
payload makes `data.get` raise (caught, yielding `[]`); a missing
`inclusions` key defaults to the empty list; a non-list `inclusions` value
either is not iterable or yields non-dict items, so nothing survives the
`except`. -/
def imagesOfData : Json → List ArticleImage
  | Json.obj fs =>
    match jlookup fs "inclusions" with
    | some (Json.arr xs) => itemsImages xs
    | _ => []
  | _ => []

/-- The embedded-data stage of `scrape_article`: absent node → `[]`;
undecodable text → the `except: pass` keeps the empty list; decoded
payload → the mapping above. -/
def articleImages (viewerData : Option (Option Json)) : List ArticleImage :=
  match viewerData with
  | none => []
  | some none => []
  | some (some j) => imagesOfData j

/-- `scrape_article` after the fetch/parse boundary: `none` models an
exception escaping the extraction — the title read
`clean_text(soup.select_one('h1.header-title').text)` has no guard, so a
missing heading anchor raises before anything else is extracted. -/
def scrape_article (doc : ArticleDoc) (url now : String) : Option Article :=
  match doc.headerTitle with
  | none => none
  | some t =>
    some { source := "radiopaedia"
           source_id := extractSourceId doc.ridText
           type := "article"
           title := clean_text (some t)
           body_system := extractSystem doc.systemText
           body_part := none
           sections := articleSections doc.contentChildren
           images := articleImages doc.viewerData
           tags := extractTags doc.tagTexts
           metadata := { created_at := now
                         url := url
                         license := "See Radiopaedia ToS" } }

/-! ## Serialization (src/models/article.py)

`to_json` is `json.dumps(asdict(self), ensure_ascii=False)`: the record is
first flattened to a JSON value (nested dataclasses to objects, lists to
arrays, `None` to null) and then rendered by the host JSON library.  The
round-trip claim is settled at the structured-value level; the repository
contains no deserializer, so the inverse readers below are modelled from
the spec ("roundtrip via the structured format must reconstruct equivalent
field values"). -/

def jOptStr : Option String → Json
  | none => Json.null
  | some s => Json.str s

def ArticleSection.asdict (s : ArticleSection) : Json :=
  Json.obj [("slug", Json.str s.slug), ("title", Json.str s.title),
            ("markdown", Json.str s.markdown)]

def ArticleImage.asdict (i : ArticleImage) : Json :=
  Json.obj [("image_id", Json.str i.image_id), ("figure_label", jOptStr i.figure_label),
            ("modality", jOptStr i.modality), ("plane", jOptStr i.plane),
            ("caption", Json.str i.caption), ("filepath", Json.str i.filepath)]

def MetaEnvelope.asdict (m : MetaEnvelope) : Json :=
  Json.obj [("created_at", Json.str m.created_at), ("url", Json.str m.url),
            ("license", Json.str m.license)]

/-- `asdict(self)` on an `Article`, fields in dataclass declaration order. -/
def Article.asdict (a : Article) : Json :=
  Json.obj [("source", Json.str a.source), ("source_id", Json.str a.source_id),
            ("type", Json.str a.type), ("title", Json.str a.title),
            ("body_system", Json.str a.body_system), ("body_part", jOptStr a.body_part),
            ("sections", Json.arr (a.sections.map ArticleSection.asdict)),
            ("images", Json.arr (a.images.map ArticleImage.asdict)),
            ("tags", Json.arr (a.tags.map Json.str)),
            ("metadata", a.metadata.asdict)]

def CaseImage.asdict (i : CaseImage) : Json :=
  Json.obj [("image_id", Json.str i.image_id), ("modality", Json.str i.modality),
            ("plane", Json.str i.plane), ("filepath", Json.str i.filepath),
            ("caption", Json.str i.caption), ("annotations", Json.obj i.ann_map)]

def Diagnosis.asdict (d : Diagnosis) : Json :=
  Json.obj [("text", Json.str d.text), ("certainty", Json.str d.certainty)]

def Narrative.asdict (n : Narrative) : Json :=
  Json.obj [("findings", Json.str n.findings), ("impression", Json.str n.impression),
            ("discussion", Json.str n.discussion)]

def jOptNat : Option Nat → Json
  | none => Json.null
  | some n => Json.num (Int.ofNat n)

/-- Modelled from the spec: `asdict` on the absent Case model, fields as in
the assembled record plus the defaulted demographics. -/
def Case.asdict (c : Case) : Json :=
  Json.obj [("source", Json.str c.source), ("source_id", Json.str c.source_id),
            ("title", Json.str c.title), ("body_system", Json.str c.body_system),
            ("body_part", Json.str c.body_part),
            ("modality", Json.arr (c.modality.map Json.str)),
            ("clinical_presentation", Json.str c.clinical_presentation),
            ("diagnosis", c.diagnosis.asdict), ("narrative", c.narrative.asdict),
            ("images", Json.arr (c.images.map CaseImage.asdict)),
            ("tags", Json.arr (c.tags.map Json.str)),
            ("metadata", c.metadata.asdict),
            ("age", jOptNat c.age), ("sex", jOptStr c.sex)]

/-- Effectful map over a list, failing when any element fails. -/
def traverseO (f : α → Option β) : List α → Option (List β)
  | [] => some []
  | a :: rest =>
    match f a, traverseO f rest with
    | some b, some bs => some (b :: bs)
    | _, _ => none

def unStr : Json → Option String
  | Json.str s => some s
  | _ => none

def unOptStr : Json → Option (Option String)
  | Json.null => some none
  | Json.str s => some (some s)
  | _ => none

def unOptNat : Json → Option (Option Nat)
  | Json.null => some none
  | Json.num (Int.ofNat n) => some (some n)
  | _ => none

/-- Modelled from the spec: reader for one serialized section. -/
def ArticleSection.ofDict : Json → Option ArticleSection
  | Json.obj [("slug", Json.str slug), ("title", Json.str title),
              ("markdown", Json.str markdown)] =>
    some { slug := slug, title := title, markdown := markdown }
  | _ => none

/-- Modelled from the spec: reader for one serialized article image. -/
def ArticleImage.ofDict : Json → Option ArticleImage
  | Json.obj [("image_id", Json.str iid), ("figure_label", fl), ("modality", mo),
              ("plane", pl), ("caption", Json.str cap), ("filepath", Json.str fp)] =>
    match unOptStr fl, unOptStr mo, unOptStr pl with
    | some fl', some mo', some pl' =>
      some { image_id := iid, figure_label := fl', modality := mo', plane := pl',
             caption := cap, filepath := fp }
    | _, _, _ => none
  | _ => none

def MetaEnvelope.ofDict : Json → Option MetaEnvelope
  | Json.obj [("created_at", Json.str ca), ("url", Json.str url),
              ("license", Json.str lic)] =>
    some { created_at := ca, url := url, license := lic }
  | _ => none

/-- Reading the next serialized field: the writer emits fields in dataclass
order, so the reader peels the expected key off the front. -/
def takeField (key : String) : List (String × Json) → Option (Json × List (String × Json))
  | [] => none
  | (k, v) :: rest => if k == key then some (v, rest) else none

def takeStr (key : String) (fs : List (String × Json)) : Option (String × List (String × Json)) :=
  (takeField key fs).bind fun p => (unStr p.1).map fun s => (s, p.2)

/-- Reading the next serialized field when it must be an array. -/
def takeArr (key : String) (fs : List (String × Json)) : Option (List Json × List (String × Json)) :=
  (takeField key fs).bind fun p =>
    match p.1 with
    | Json.arr xs => some (xs, p.2)
    | _ => none

/-- Intermediate reader state: the scalar head fields of a serialized
article. -/
structure ArticleHead where
  source : String
  source_id : String
  type : String
  title : String
  body_system : String
  body_part : Option String

def articleHeadOfFields (fs0 : List (String × Json)) : Option (ArticleHead × List (String × Json)) :=
  (takeStr "source" fs0).bind fun p1 =>
  (takeStr "source_id" p1.2).bind fun p2 =>
  (takeStr "type" p2.2).bind fun p3 =>
  (takeStr "title" p3.2).bind fun p4 =>
  (takeStr "body_system" p4.2).bind fun p5 =>
  (takeField "body_part" p5.2).bind fun p6 =>
  (unOptStr p6.1).bind fun bp =>
  some (⟨p1.1, p2.1, p3.1, p4.1, p5.1, bp⟩, p6.2)

/-- Intermediate reader state: the aggregate tail fields of a serialized
article. -/
structure ArticleTail where
  sections : List ArticleSection
  images : List ArticleImage
  tags : List String
  metadata : MetaEnvelope

def articleTailOfFields (fs : List (String × Json)) : Option (ArticleTail × List (String × Json)) :=
  (takeArr "sections" fs).bind fun p7 =>
  (traverseO ArticleSection.ofDict p7.1).bind fun ss =>
  (takeArr "images" p7.2).bind fun p8 =>
  (traverseO ArticleImage.ofDict p8.1).bind fun imgs =>
  (takeArr "tags" p8.2).bind fun p9 =>
  (traverseO unStr p9.1).bind fun ts =>
  (takeField "metadata" p9.2).bind fun p10 =>
  (MetaEnvelope.ofDict p10.1).bind fun md =>
  some (⟨ss, imgs, ts, md⟩, p10.2)

/-- Modelled from the spec: the deserializer absent from the repository —
reads the structured representation written by `Article.asdict` back into
field values. -/
def Article.ofDict : Json → Option Article
  | Json.obj fs0 =>
    (articleHeadOfFields fs0).bind fun ph =>
    (articleTailOfFields ph.2).bind fun pt =>
    if pt.2.isEmpty then
      some { source := ph.1.source, source_id := ph.1.source_id, type := ph.1.type,
             title := ph.1.title, body_system := ph.1.body_system,
             body_part := ph.1.body_part, sections := pt.1.sections,
             images := pt.1.images, tags := pt.1.tags, metadata := pt.1.metadata }
    else none
  | _ => none

def CaseImage.ofDict : Json → Option CaseImage
  | Json.obj [("image_id", Json.str iid), ("modality", Json.str mo),
              ("plane", Json.str pl), ("filepath", Json.str fp),
              ("caption", Json.str cap), ("annotations", Json.obj am)] =>
    some { image_id := iid, modality := mo, plane := pl, filepath := fp,
           caption := cap, ann_map := am }
  | _ => none

def Diagnosis.ofDict : Json → Option Diagnosis
  | Json.obj [("text", Json.str t), ("certainty", Json.str c)] =>
    some { text := t, certainty := c }
  | _ => none

def Narrative.ofDict : Json → Option Narrative
  | Json.obj [("findings", Json.str f), ("impression", Json.str i),
              ("discussion", Json.str d)] =>
    some { findings := f, impression := i, discussion := d }
  | _ => none

/-- Intermediate reader state: the scalar head fields of a serialized
case. -/
structure CaseHead where
  source : String
  source_id : String
  title : String
  body_system : String
  body_part : String
  modality : List String
  clinical_presentation : String

def caseHeadOfFields (fs0 : List (String × Json)) : Option (CaseHead × List (String × Json)) :=
  (takeStr "source" fs0).bind fun p1 =>
  (takeStr "source_id" p1.2).bind fun p2 =>
  (takeStr "title" p2.2).bind fun p3 =>
  (takeStr "body_system" p3.2).bind fun p4 =>
  (takeStr "body_part" p4.2).bind fun p5 =>
  (takeArr "modality" p5.2).bind fun p6 =>
  (traverseO unStr p6.1).bind fun mo =>
  (takeStr "clinical_presentation" p6.2).bind fun p7 =>
  some (⟨p1.1, p2.1, p3.1, p4.1, p5.1, mo, p7.1⟩, p7.2)

/-- Intermediate reader state: the aggregate middle fields of a serialized
case. -/
structure CaseMid where
  diagnosis : Diagnosis
  narrative : Narrative
  images : List CaseImage
  tags : List String

def caseMidOfFields (fs : List (String × Json)) : Option (CaseMid × List (String × Json)) :=
  (takeField "diagnosis" fs).bind fun p8 =>
  (Diagnosis.ofDict p8.1).bind fun dg =>
  (takeField "narrative" p8.2).bind fun p9 =>
  (Narrative.ofDict p9.1).bind fun na =>
  (takeArr "images" p9.2).bind fun p10 =>
  (traverseO CaseImage.ofDict p10.1).bind fun im =>
  (takeArr "tags" p10.2).bind fun p11 =>
  (traverseO unStr p11.1).bind fun ts =>
  some (⟨dg, na, im, ts⟩, p11.2)

/-- Intermediate reader state: the trailing fields of a serialized case. -/
structure CaseEnvDemo where
  metadata : MetaEnvelope
  age : Option Nat
  sex : Option String

def caseEnvDemoOfFields (fs : List (String × Json)) : Option (CaseEnvDemo × List (String × Json)) :=
  (takeField "metadata" fs).bind fun p12 =>
  (MetaEnvelope.ofDict p12.1).bind fun md =>
  (takeField "age" p12.2).bind fun p13 =>
  (unOptNat p13.1).bind fun ag =>
  (takeField "sex" p13.2).bind fun p14 =>
  (unOptStr p14.1).bind fun sx =>
  some (⟨md, ag, sx⟩, p14.2)

/-- Modelled from the spec: deserializer for the Case record. -/
def Case.ofDict : Json → Option Case
  | Json.obj fs0 =>
    (caseHeadOfFields fs0).bind fun ph =>
    (caseMidOfFields ph.2).bind fun pm =>
    (caseEnvDemoOfFields pm.2).bind fun pe =>
    if pe.2.isEmpty then
      some { source := ph.1.source, source_id := ph.1.source_id, title := ph.1.title,
             body_system := ph.1.body_system, body_part := ph.1.body_part,
             modality := ph.1.modality, clinical_presentation := ph.1.clinical_presentation,
             diagnosis := pm.1.diagnosis, narrative := pm.1.narrative,
             images := pm.1.images, tags := pm.1.tags,
             metadata := pe.1.metadata, age := pe.1.age, sex := pe.1.sex }
    else none
  | _ => none

/-! ## Concrete documents used by the witnesses and counterexamples -/

/-- An article page whose title heading anchor is absent (the rest of the
page is ordinary). -/
def articleDocNoTitle : ArticleDoc :=
  { headerTitle := none
    ridText := some "100"
    systemText := some "Chest"
    contentChildren := some [Node.element "p" "Hello world" []]
    viewerData := none
    tagTexts := [] }

/-- An article page with leading content and one level-2 heading. -/
def articleDocHeads : ArticleDoc :=
  { headerTitle := some "Cystic bronchiectasis"
    ridText := some " 8654 "
    systemText := some "Chest"
    contentChildren := some
      [Node.element "p" "Intro text" [],
       Node.element "h2" "Findings" [],
       Node.element "p" "Text A" []]
    viewerData := none
    tagTexts := ["lungs"] }

/-- The scenario-D embedded payload
`{"inclusions":[{"imageId":"5","caption":"c","thumbnail":"u"}]}`. -/
def scenarioDPayload : Json :=
  Json.obj [("inclusions", Json.arr
    [Json.obj [("imageId", Json.str "5"), ("caption", Json.str "c"),
               ("thumbnail", Json.str "u")]])]

/-- An article page whose hidden data node decodes to the scenario-D
payload. -/
def articleDocEmbedded : ArticleDoc :=
  { headerTitle := some "Article title"
    ridText := none
    systemText := none
    contentChildren := none
    viewerData := some (some scenarioDPayload)
    tagTexts := [] }

/-- An article page whose narrative body is a single list whose item text
carries a doubled and a trailing space. -/
def articleDocListItem : ArticleDoc :=
  { headerTitle := some "T"
    ridText := none
    systemText := none
    contentChildren := some [Node.element "ul" "" ["a  b "]]
    viewerData := none
    tagTexts := [] }

/-- An article page whose hidden data node is present but whose text does
not decode as JSON. -/
def articleDocBadData : ArticleDoc :=
  { headerTitle := some "T2"
    ridText := none
    systemText := none
    contentChildren := none
    viewerData := some none
    tagTexts := [] }

/-- An ordinary case page: rID digits padded by whitespace, a `ct` tag with
stray whitespace, no patient-data anchor. -/
def caseDocPlain : CaseDoc :=
  { ridText := some " 8654 "
    dateAttr := none
    headerTitle := some "Cystic bronchiectasis"
    systemText := some "Chest"
    tagTexts := [" ct "]
    patientItems := none
    diagnosisText := none
    findingsText := none
    discussionText := none
    carouselSrcs := [some "img1.png"] }

/-- A case page with no title heading anchor (and no patient-data anchor,
so extraction completes). -/
def caseDocNoTitle : CaseDoc :=
  { ridText := none
    dateAttr := none
    headerTitle := none
    systemText := none
    tagTexts := []
    patientItems := none
    diagnosisText := none
    findingsText := none
    discussionText := none
    carouselSrcs := [] }

/-- Scenario B: patient-data items rendering as "Age: 34 years" under the
age label and "Gender: Female" under the gender label. -/
def caseDocScenarioB : CaseDoc :=
  { ridText := some "8654"
    dateAttr := none
    headerTitle := some "Cystic bronchiectasis"
    systemText := some "Chest"
    tagTexts := []
    patientItems := some
      [{ labelText := some "Age:", itemText := "Age: 34 years" },
       { labelText := some "Gender:", itemText := "Gender: Female" }]
    diagnosisText := none
    findingsText := none
    discussionText := none
    carouselSrcs := [] }

/-- A case page whose patient-data anchor is present but whose single data
item has no label child element. -/
def caseDocNoLabel : CaseDoc :=
  { ridText := some "8654"
    dateAttr := none
    headerTitle := some "Cystic bronchiectasis"
    systemText := none
    tagTexts := []
    patientItems := some [{ labelText := none, itemText := "34 years" }]
    diagnosisText := none
    findingsText := none
    discussionText := none
    carouselSrcs := [] }

/-! ## Predicates about segmenter output -/

/-- A stored line as the segmenter produces it: either the output of the
text normalizer on some source fragment, or a raw `"- "`-prefixed list-item
line. -/
def IsCleanOrItemLine (l : String) : Prop :=
  (∃ t, l = clean_text (some t)) ∨ ∃ t, l = "- " ++ t

/-- A section title as the segmenter produces it: the reserved seed title or
the normalizer's output on a heading's text. -/
def IsSegTitle (t : String) : Prop :=
  t = "Introduction" ∨ ∃ u, t = clean_text (some u)

/-- A section whose title is a segmenter title and whose markdown is the
newline join of lines each of which is normalized or a raw list item. -/
def GoodSec (s : ArticleSection) : Prop :=
  IsSegTitle s.title ∧ ∃ lines, s.markdown = joinLines lines ∧ ∀ l ∈ lines, IsCleanOrItemLine l

/-! ## Round-trip helper lemmas -/

theorem traverseO_map (f : α → Option β) (g : β → α) (h : ∀ a, f (g a) = some a) :
    ∀ l : List β, traverseO f (l.map g) = some l := by
  intro l
  induction l with
  | nil => rfl
  | cons a rest ih => simp [traverseO, h a, ih]

theorem unStr_str (s : String) : unStr (Json.str s) = some s := rfl

theorem unOptStr_jOptStr (o : Option String) : unOptStr (jOptStr o) = some o := by
  cases o <;> rfl

theorem unOptNat_jOptNat (o : Option Nat) : unOptNat (jOptNat o) = some o := by
  cases o <;> rfl

theorem sectionRoundtrip (s : ArticleSection) : ArticleSection.ofDict s.asdict = some s := by
  cases s
  rfl

theorem imageRoundtrip (i : ArticleImage) : ArticleImage.ofDict i.asdict = some i := by
  obtain ⟨iid, fl, mo, pl, cap, fp⟩ := i
  cases fl <;> cases mo <;> cases pl <;> rfl

theorem metaRoundtrip (m : MetaEnvelope) : MetaEnvelope.ofDict m.asdict = some m := by
  cases m
  rfl

theorem caseImageRoundtrip (i : CaseImage) : CaseImage.ofDict i.asdict = some i := by
  cases i
  rfl

theorem diagnosisRoundtrip (d : Diagnosis) : Diagnosis.ofDict d.asdict = some d := by
  cases d
  rfl

theorem narrativeRoundtrip (n : Narrative) : Narrative.ofDict n.asdict = some n := by
  cases n
  rfl

set_option maxHeartbeats 1600000 in
/-- Claim C9: for every assembled record, serializing it to the structured
representation (`asdict`, the value `to_json` renders) and then reading that
representation back reconstructs every field value exactly; the reader is
modelled from the spec since the repository defines only the serializer. -/
theorem claim_c9_roundtrip :
    ∀ (a : Article) (c : Case),
      Article.ofDict a.asdict = some a ∧ Case.ofDict c.asdict = some c := by
  intro a c
  constructor
  · obtain ⟨source, sid, ty, title, bs, bp, ss, imgs, ts, md⟩ := a
    simp [Article.asdict, Article.ofDict, articleHeadOfFields, articleTailOfFields,
          takeStr, takeArr, takeField, unStr,
          traverseO_map ArticleSection.ofDict ArticleSection.asdict sectionRoundtrip,
          traverseO_map ArticleImage.ofDict ArticleImage.asdict imageRoundtrip,
          traverseO_map unStr Json.str unStr_str,
          unOptStr_jOptStr, metaRoundtrip]
  · obtain ⟨source, sid, title, bs, bp, mo, cp, dg, na, im, ts, md, ag, sx⟩ := c
    simp [Case.asdict, Case.ofDict, caseHeadOfFields, caseMidOfFields,
          caseEnvDemoOfFields, takeStr, takeArr, takeField, unStr,
          traverseO_map unStr Json.str unStr_str,
          traverseO_map CaseImage.ofDict CaseImage.asdict caseImageRoundtrip,
          diagnosisRoundtrip, narrativeRoundtrip, metaRoundtrip,
          unOptNat_jOptNat, unOptStr_jOptStr]

/-! ## Section segmenter lemmas -/

theorem flushSec_titles (t : String) (lines : List String) (acc : List ArticleSection) :
    (flushSec t lines acc).map ArticleSection.title = acc.map ArticleSection.title ∨
      (flushSec t lines acc).map ArticleSection.title = acc.map ArticleSection.title ++ [t] := by
  cases h : lines.isEmpty
  · right
    simp [flushSec, h, mkSection]
  · left
    simp [flushSec, h]

theorem headingTitles_cons_heading (nm txt : String) (lis : List String) (rest : List Node)
    (h : isHeadingName nm = true) :
    headingTitles (Node.element nm txt lis :: rest) = clean_text (some txt) :: headingTitles rest := by
  simp [headingTitles, h]

theorem headingTitles_cons_other (nm txt : String) (lis : List String) (rest : List Node)
    (h : isHeadingName nm = false) :
    headingTitles (Node.element nm txt lis :: rest) = headingTitles rest := by
  simp [headingTitles, h]

theorem headingTitles_cons_text (s : String) (rest : List Node) :
    headingTitles (Node.textNode s :: rest) = headingTitles rest := by
  simp [headingTitles]

/-- The titles the segmenter emits follow the seed title and then the
headings, in order: emitted titles form a sublist of the accumulator's
titles, the current buffer title, and the cleaned heading texts. -/
theorem segLoop_titles (ns : List Node) :
    ∀ (t : String) (lines : List String) (acc : List ArticleSection),
      ((segLoop t lines acc ns).map ArticleSection.title).Sublist
        (acc.map ArticleSection.title ++ t :: headingTitles ns) := by
  induction ns with
  | nil =>
    intro t lines acc
    rcases flushSec_titles t lines acc with h | h
    · rw [show segLoop t lines acc [] = flushSec t lines acc from rfl, h]
      simp [headingTitles]
    · rw [show segLoop t lines acc [] = flushSec t lines acc from rfl, h]
      simp [headingTitles]
  | cons n rest ih =>
    intro t lines acc
    cases n with
    | textNode s =>
      rw [show segLoop t lines acc (Node.textNode s :: rest) = segLoop t lines acc rest from rfl,
          headingTitles_cons_text]
      exact ih t lines acc
    | element nm txt lis =>
      cases hh : isHeadingName nm with
      | true =>
        rw [show segLoop t lines acc (Node.element nm txt lis :: rest) =
              segLoop (clean_text (some txt)) [] (flushSec t lines acc) rest from by
                simp [segLoop, hh],
            headingTitles_cons_heading nm txt lis rest hh]
        rcases flushSec_titles t lines acc with h | h
        · refine (ih _ _ _).trans ?_
          rw [h]
          exact List.Sublist.append_left (List.sublist_cons_self t _) _
        · refine (ih _ _ _).trans ?_
          rw [h, List.append_assoc]
          simp
      | false =>
        have hstep : ∃ lines', segLoop t lines acc (Node.element nm txt lis :: rest) =
            segLoop t lines' acc rest := by
          by_cases hp : (nm == "p") = true
          · exact ⟨lines ++ [clean_text (some txt)], by simp [segLoop, hh, hp]⟩
          · by_cases hu : (nm == "ul") = true
            · exact ⟨lines ++ lis.map (fun s => "- " ++ s), by simp [segLoop, hh, hp, hu]⟩
            · exact ⟨lines, by simp [segLoop, hh, hp, hu]⟩
        obtain ⟨lines', he⟩ := hstep
        rw [he, headingTitles_cons_other nm txt lis rest hh]
        exact ih t lines' acc

/-- Claim C2: for every article document, the ordered sequence of titles of
the returned sections follows the document-order sequence of heading
elements (levels 2-4): it is a sublist of the reserved seed title
`"Introduction"` followed by the cleaned heading texts in order (sections
whose buffer stayed empty are dropped, never reordered). -/
theorem claim_c2_section_titles :
    ∀ (doc : ArticleDoc) (url now : String) (ts : List String),
      (scrape_article doc url now).map (fun a => a.sections.map ArticleSection.title) = some ts →
      ts.Sublist ("Introduction" :: articleHeadingTitles doc) := by
  intro doc url now ts h
  cases hT : doc.headerTitle with
  | none => simp [scrape_article, hT] at h
  | some t =>
    simp [scrape_article, hT] at h
    subst h
    cases hC : doc.contentChildren with
    | none => simp [articleSections, hC]
    | some cs =>
      simp only [articleSections, articleHeadingTitles, hC]
      simpa using segLoop_titles cs "Introduction" [] []

/-- Witness for C2 at a concrete document with leading content and one
heading. -/
theorem claim_c2_witness :
    List.Sublist ["Introduction", "Findings"]
      ("Introduction" :: articleHeadingTitles articleDocHeads) :=
  claim_c2_section_titles articleDocHeads "u" "n" ["Introduction", "Findings"] rfl

/-! ## Stored-line provenance lemmas -/

theorem flushSec_good (t : String) (lines : List String) (acc : List ArticleSection)
    (ht : IsSegTitle t) (hl : ∀ l ∈ lines, IsCleanOrItemLine l)
    (ha : ∀ s ∈ acc, GoodSec s) : ∀ s ∈ flushSec t lines acc, GoodSec s := by
  intro s hs
  cases h : lines.isEmpty
  · simp [flushSec, h] at hs
    rcases hs with hs | rfl
    · exact ha s hs
    · exact ⟨ht, lines, rfl, hl⟩
  · simp [flushSec, h] at hs
    exact ha s hs

theorem segLoop_good (ns : List Node) :
    ∀ (t : String) (lines : List String) (acc : List ArticleSection),
      IsSegTitle t → (∀ l ∈ lines, IsCleanOrItemLine l) → (∀ s ∈ acc, GoodSec s) →
      ∀ s ∈ segLoop t lines acc ns, GoodSec s := by
  induction ns with
  | nil =>
    intro t lines acc ht hl ha
    exact flushSec_good t lines acc ht hl ha
  | cons n rest ih =>
    intro t lines acc ht hl ha
    cases n with
    | textNode s =>
      intro sec hsec
      rw [show segLoop t lines acc (Node.textNode s :: rest) = segLoop t lines acc rest
            from rfl] at hsec
      exact ih t lines acc ht hl ha sec hsec
    | element nm txt lis =>
      cases hh : isHeadingName nm with
      | true =>
        intro sec hsec
        rw [show segLoop t lines acc (Node.element nm txt lis :: rest) =
              segLoop (clean_text (some txt)) [] (flushSec t lines acc) rest from by
                simp [segLoop, hh]] at hsec
        exact ih (clean_text (some txt)) [] (flushSec t lines acc)
          (Or.inr ⟨txt, rfl⟩) (by simp) (flushSec_good t lines acc ht hl ha) sec hsec
      | false =>
        by_cases hp : (nm == "p") = true
        · intro sec hsec
          rw [show segLoop t lines acc (Node.element nm txt lis :: rest) =
                segLoop t (lines ++ [clean_text (some txt)]) acc rest from by
                  simp [segLoop, hh, hp]] at hsec
          refine ih t _ acc ht ?_ ha sec hsec
          intro l hl2
          rcases List.mem_append.mp hl2 with h2 | h2
          · exact hl l h2
          · obtain rfl := List.mem_singleton.mp h2
            exact Or.inl ⟨txt, rfl⟩
        · by_cases hu : (nm == "ul") = true
          · intro sec hsec
            rw [show segLoop t lines acc (Node.element nm txt lis :: rest) =
                  segLoop t (lines ++ lis.map (fun s => "- " ++ s)) acc rest from by
                    simp [segLoop, hh, hp, hu]] at hsec
            refine ih t _ acc ht ?_ ha sec hsec
            intro l hl2
            rcases List.mem_append.mp hl2 with h2 | h2
            · exact hl l h2
            · obtain ⟨x, hx, rfl⟩ := List.mem_map.mp h2
              exact Or.inr ⟨x, rfl⟩
          · intro sec hsec
            rw [show segLoop t lines acc (Node.element nm txt lis :: rest) =
                  segLoop t lines acc rest from by simp [segLoop, hh, hp, hu]] at hsec
            exact ih t lines acc ht hl ha sec hsec

/-- Claim C5 (amended): in every returned article section, each markdown
line is either the output of the text normalizer on some source fragment or
a `"- "`-prefixed raw list-item line — the list-item lines are appended
without passing through `clean_text`, contrary to the original claim. -/
theorem claim_c5_stored_lines :
    ∀ (doc : ArticleDoc) (url now : String) (secs : List ArticleSection),
      (scrape_article doc url now).map Article.sections = some secs →
      ∀ s ∈ secs, GoodSec s := by
  intro doc url now secs h
  cases hT : doc.headerTitle with
  | none => simp [scrape_article, hT] at h
  | some t =>
    simp [scrape_article, hT] at h
    subst h
    cases hC : doc.contentChildren with
    | none => simp [articleSections, hC]
    | some cs =>
      simp only [articleSections, hC]
      exact segLoop_good cs "Introduction" [] [] (Or.inl rfl) (by simp) (by simp)

/-- Counterexample for C5 as stated: a list item whose raw text carries a
doubled and a trailing space is stored verbatim behind the `"- "` prefix;
the stored string is not a fixed point of the normalizer, so it was not
routed through it. -/
theorem claim_c5_counterexample :
    (scrape_article articleDocListItem "u" "n").map
        (fun a => a.sections.map ArticleSection.markdown) = some ["- a  b "]
    ∧ clean_text (some "- a  b ") ≠ "- a  b " :=
  ⟨rfl, by decide⟩

/-- Witness for the amended C5 at the concrete list-item document. -/
theorem claim_c5_witness :
    GoodSec { slug := "introduction", title := "Introduction", markdown := "- a  b " } :=
  claim_c5_stored_lines articleDocListItem "u" "n"
    [{ slug := "introduction", title := "Introduction", markdown := "- a  b " }] rfl
    _ (List.mem_singleton.mpr rfl)

/-! ## Identifier, title, patient-data and embedded-data claims -/

theorem extractSourceId_spec (o : Option String) :
    extractSourceId o ≠ "" ∧ (o = none → extractSourceId o = "unknown") ∧
      ∀ t, o = some t → extractSourceId o = "rID-" ++ clean_text (some t) := by
  refine ⟨?_, ?_, ?_⟩
  · cases o with
    | none => decide
    | some t =>
      intro he
      simp only [extractSourceId] at he
      have hlen := congrArg String.length he
      rw [String.length_append] at hlen
      have h4 : ("rID-" : String).length = 4 := rfl
      have h0 : ("" : String).length = 0 := rfl
      omega
  · intro h
    subst h
    rfl
  · intro t h
    subst h
    rfl

/-- Claim C6: identifier extraction returns `"unknown"` when the anchor
region is absent, and `"rID-"` followed by the normalized anchor text
otherwise (when the anchor holds whitespace-padded digits, `clean_text`
yields exactly those digits); in all cases the result is a non-empty
string, for both entry points. -/
theorem claim_c6_identifier :
    (∀ (doc : CaseDoc) (url now sid : String),
        (scrape_case doc url now).map Case.source_id = some sid →
        sid ≠ "" ∧ (doc.ridText = none → sid = "unknown") ∧
          ∀ t, doc.ridText = some t → sid = "rID-" ++ clean_text (some t))
    ∧ ∀ (doc : ArticleDoc) (url now sid : String),
        (scrape_article doc url now).map Article.source_id = some sid →
        sid ≠ "" ∧ (doc.ridText = none → sid = "unknown") ∧
          ∀ t, doc.ridText = some t → sid = "rID-" ++ clean_text (some t) := by
  constructor
  · intro doc url now sid h
    cases hp : casePatient doc.patientItems with
    | none => simp [scrape_case, hp] at h
    | some p =>
      simp [scrape_case, hp] at h
      subst h
      exact extractSourceId_spec doc.ridText
  · intro doc url now sid h
    cases hT : doc.headerTitle with
    | none => simp [scrape_article, hT] at h
    | some t =>
      simp [scrape_article, hT] at h
      subst h
      exact extractSourceId_spec doc.ridText

/-- Witness for C6: both branches exercised at concrete documents. -/
theorem claim_c6_witness :
    ("rID-8654" : String) ≠ "" ∧ ("unknown" : String) ≠ ""
    ∧ ("rID-8654" : String) = "rID-" ++ clean_text (some " 8654 ") :=
  ⟨(claim_c6_identifier.1 caseDocPlain "u" "n" "rID-8654" rfl).1,
   (claim_c6_identifier.2 articleDocEmbedded "u" "n" "unknown" rfl).1,
   (claim_c6_identifier.1 caseDocPlain "u" "n" "rID-8654" rfl).2.2 " 8654 " rfl⟩

/-- Claim C1 (amended): `scrape_case` recovers a missing title heading with
the `"Untitled"` default, but `scrape_article` has no such fallback — a
missing heading anchor raises (no record is returned) instead of being
recovered. -/
theorem claim_c1_title_default :
    (∀ (doc : CaseDoc) (url now s : String),
        doc.headerTitle = none →
        (scrape_case doc url now).map Case.title = some s → s = "Untitled")
    ∧ ∀ (doc : ArticleDoc) (url now : String),
        doc.headerTitle = none → scrape_article doc url now = none := by
  constructor
  · intro doc url now s hT h
    cases hp : casePatient doc.patientItems with
    | none => simp [scrape_case, hp] at h
    | some p =>
      simp [scrape_case, hp, caseTitle, hT] at h
      exact h.symm
  · intro doc url now hT
    simp [scrape_article, hT]

/-- Counterexample for C1 as stated: an article document without the title
heading anchor makes `scrape_article` raise (modelled as `none`) instead of
returning a record titled `"Untitled"`. -/
theorem claim_c1_counterexample : scrape_article articleDocNoTitle "u" "n" = none := rfl

/-- Witness for the amended C1 at concrete documents. -/
theorem claim_c1_witness :
    (("Untitled" : String) = "Untitled") ∧ scrape_article articleDocNoTitle "u2" "n2" = none :=
  ⟨claim_c1_title_default.1 caseDocNoTitle "u" "n" "Untitled" rfl rfl,
   claim_c1_title_default.2 articleDocNoTitle "u2" "n2" rfl⟩

/-- Claim C3 (amended): the scenario-D payload yields exactly one
ArticleImage with identifier `"5"`, caption `"c"`, file reference `"u"` and
plane unset — but the source sets `modality` to the sentinel string
`"Unknown"` rather than leaving it unset. -/
theorem claim_c3_embedded_image :
    ∀ (doc : ArticleDoc) (url now : String) (imgs : List ArticleImage),
      doc.viewerData = some (some scenarioDPayload) →
      (scrape_article doc url now).map Article.images = some imgs →
      imgs = [{ image_id := "5", figure_label := none, modality := some "Unknown",
                plane := none, caption := "c", filepath := "u" }] := by
  intro doc url now imgs hv h
  cases hT : doc.headerTitle with
  | none => simp [scrape_article, hT] at h
  | some t =>
    have himg : articleImages doc.viewerData =
        [{ image_id := "5", figure_label := none, modality := some "Unknown",
           plane := none, caption := "c", filepath := "u" }] := by
      rw [hv]
      rfl
    simp [scrape_article, hT, himg] at h
    exact h.symm

/-- Counterexample for C3 as stated: at the scenario-D document the decoded
image's modality is the string `"Unknown"`, not unset. -/
theorem claim_c3_counterexample :
    (scrape_article articleDocEmbedded "u" "n").map
        (fun a => a.images.map fun i =>
          (i.image_id, i.figure_label, i.modality, i.plane, i.caption, i.filepath))
      = some [("5", none, some "Unknown", none, "c", "u")]
    ∧ (some "Unknown" : Option String) ≠ none :=
  ⟨rfl, by decide⟩

/-- Witness for the amended C3 at the scenario-D document. -/
theorem claim_c3_witness :
    [({ image_id := "5", figure_label := none, modality := some "Unknown",
        plane := none, caption := "c", filepath := "u" } : ArticleImage)] =
      [{ image_id := "5", figure_label := none, modality := some "Unknown",
         plane := none, caption := "c", filepath := "u" }] :=
  claim_c3_embedded_image articleDocEmbedded "u" "n" _ rfl rfl

/-- Claim C4 (code bug): the patient-data loop computes age 34 and the
lower-cased remainder `" female"` into the local dict, but the Case
constructor is never handed that dict, so the returned record carries the
default demographics in scenario B just as in scenario A. -/
theorem claim_c4_patient_discarded :
    (scrape_case caseDocScenarioB "u" "n").map (fun c => (c.age, c.sex)) = some (none, none)
    ∧ casePatient caseDocScenarioB.patientItems = some (some 34, some " female")
    ∧ (scrape_case caseDocPlain "u" "n").map (fun c => (c.age, c.sex)) = some (none, none) :=
  ⟨rfl, rfl, rfl⟩

/-- Claim C7: when the hidden data node is absent, and when it is present
but its text fails to decode, `scrape_article` still returns a record and
its image list is empty. -/
theorem claim_c7_embedded_failures :
    ∀ (doc : ArticleDoc) (url now t : String),
      doc.headerTitle = some t →
      doc.viewerData = none ∨ doc.viewerData = some none →
      (scrape_article doc url now).map Article.images = some [] := by
  intro doc url now t hT hv
  have himg : articleImages doc.viewerData = [] := by
    rcases hv with hv | hv <;> rw [hv] <;> rfl
  simp [scrape_article, hT, himg]

/-- Witness for C7 at a document with an undecodable hidden data node. -/
theorem claim_c7_witness :
    (scrape_article articleDocBadData "u" "n").map Article.images = some [] :=
  claim_c7_embedded_failures articleDocBadData "u" "n" "T2" rfl (Or.inr rfl)

/-- Claim C8: the modality of every returned Case is the singleton
`["CT"]` when the token `"ct"` is among the extracted (cleaned) tags, and
`["X-ray"]` otherwise. -/
theorem claim_c8_modality :
    ∀ (doc : CaseDoc) (url now : String) (m : List String),
      (scrape_case doc url now).map Case.modality = some m →
      m = if (extractTags doc.tagTexts).contains "ct" then ["CT"] else ["X-ray"] := by
  intro doc url now m h
  cases hp : casePatient doc.patientItems with
  | none => simp [scrape_case, hp] at h
  | some p =>
    simp [scrape_case, hp] at h
    subst h
    by_cases hc : "ct" ∈ extractTags doc.tagTexts
    · simp [hc]
    · simp [hc]

/-- Witness for C8 at a document carrying a whitespace-padded `ct` tag. -/
theorem claim_c8_witness :
    (["CT"] : List String) =
      if (extractTags caseDocPlain.tagTexts).contains "ct" then ["CT"] else ["X-ray"] :=
  claim_c8_modality caseDocPlain "u" "n" ["CT"] rfl

theorem patientLoop_none (items : List DataItem) :
    ∀ (age : Option Nat) (sex : Option String),
      (∃ it ∈ items, it.labelText = none) → patientLoop items age sex = none := by
  induction items with
  | nil =>
    intro age sex h
    obtain ⟨it, hmem, _⟩ := h
    exact absurd hmem (List.not_mem_nil it)
  | cons item rest ih =>
    intro age sex h
    obtain ⟨it, hmem, hnone⟩ := h
    rcases List.mem_cons.mp hmem with rfl | hmem'
    · simp [patientLoop, hnone]
    · cases hl : item.labelText with
      | none => simp [patientLoop, hl]
      | some lbl =>
        simp only [patientLoop, hl]
        split
        all_goals try split
        all_goals exact ih _ _ ⟨it, hmem', hnone⟩

/-- Claim C10: when the patient-data anchor is present and some data item
has no label child element, `scrape_case` raises (no record is returned)
instead of recovering with default demographics. -/
theorem claim_c10_missing_label :
    ∀ (doc : CaseDoc) (url now : String) (items : List DataItem) (item : DataItem),
      doc.patientItems = some items → item ∈ items → item.labelText = none →
      scrape_case doc url now = none := by
  intro doc url now items item hdoc hmem hnone
  have hp : casePatient doc.patientItems = none := by
    rw [hdoc]
    exact patientLoop_none items none none ⟨item, hmem, hnone⟩
  simp [scrape_case, hp]

/-- Witness for C10 at a document whose single data item lacks a label. -/
theorem claim_c10_witness : scrape_case caseDocNoLabel "u" "n" = none :=
  claim_c10_missing_label caseDocNoLabel "u" "n"
    [{ labelText := none, itemText := "34 years" }]
    { labelText := none, itemText := "34 years" } rfl (List.mem_singleton.mpr rfl) rfl
